import Mathlib

/-!
Formal model of the Nutri-AI backend (`backend/models.py`, `backend/calculations.py`,
`backend/ai_service.py`), shallowly embedded in Lean 4.

Python floats are modelled by `ℚ`; Python dicts whose key sets matter are modelled by
association lists (`List (String × ℚ)`) or by structures with `Option` fields for keys
that may be absent.  Fallible Python code (code that can raise) is modelled by
`Except String _`, the error string naming the Python exception.
-/

namespace NutriAI

/-- `Gender` enum from `models.py`. -/
inductive Gender where
  | male
  | female
deriving DecidableEq, Repr

/-- `ActivityLevel` enum from `models.py`. -/
inductive ActivityLevel where
  | sedentary
  | light
  | moderate
  | active
deriving DecidableEq, Repr

/-- `Goal` enum from `models.py`. -/
inductive Goal where
  | lose
  | maintain
  | gain
deriving DecidableEq, Repr

/-- `User` pydantic model from `models.py`. -/
structure User where
  name : String
  age : ℤ
  gender : Gender
  height : ℚ
  weight : ℚ
  activity : ActivityLevel
  goal : Goal
deriving DecidableEq, Repr

/-- `calculate_bmr` from `calculations.py` (Mifflin-St Jeor). -/
def calculate_bmr (user : User) : ℚ :=
  match user.gender with
  | .male => 10 * user.weight + 6.25 * user.height - 5 * (user.age : ℚ) + 5
  | .female => 10 * user.weight + 6.25 * user.height - 5 * (user.age : ℚ) - 161

/-- The `activity_multipliers` dict from `calculations.py` (total on the enum). -/
def activity_multipliers (a : ActivityLevel) : ℚ :=
  match a with
  | .sedentary => 1.2
  | .light => 1.375
  | .moderate => 1.55
  | .active => 1.725

/-- `calculate_tdee` from `calculations.py`. -/
def calculate_tdee (user : User) (bmr : ℚ) : ℚ :=
  bmr * activity_multipliers user.activity

/-- `get_daily_calories` from `calculations.py`. -/
def get_daily_calories (user : User) : ℚ :=
  let bmr := calculate_bmr user
  let tdee := calculate_tdee user bmr
  match user.goal with
  | .lose => tdee - 500
  | .gain => tdee + 500
  | .maintain => tdee

/-- `calculate_daily_calories` from `calculations.py` (alias of `get_daily_calories`). -/
def calculate_daily_calories (user : User) : ℚ :=
  get_daily_calories user

/-- `get_macro_targets` from `calculations.py`.  The Python function returns a dict with
exactly the keys `"protein"`, `"carbs"`, `"fat"`; we model the dict as an association
list so that key lookups (and absent keys, such as `"fiber"`) are faithfully visible. -/
def get_macro_targets (user : User) (daily_calories : ℚ) : List (String × ℚ) :=
  let ratios : ℚ × ℚ × ℚ :=
    match user.goal with
    | .lose => (0.35, 0.35, 0.30)
    | .gain => (0.30, 0.45, 0.25)
    | .maintain => (0.30, 0.40, 0.30)
  [("protein", daily_calories * ratios.1 / 4),
   ("carbs", daily_calories * ratios.2.1 / 4),
   ("fat", daily_calories * ratios.2.2 / 9)]

/-- The user profile named in claim C4: male, age 25, height 170 cm, weight 70 kg,
moderate activity, maintain goal. -/
def c4User : User :=
  { name := "test"
    age := 25
    gender := .male
    height := 170
    weight := 70
    activity := .moderate
    goal := .maintain }

/-- A renamed copy of `c4User`: all nutrition-relevant fields agree, only the name differs. -/
def c4UserRenamed : User :=
  { c4User with name := "other" }

/-- One cooking-method dict from `models.py` / `ai_service.py`.  The catalog dicts in
`SAMPLE_MEALS` carry the keys `method`, `portion`, `calories`, `protein`, `carbs`,
`fat`, `price` — and notably no `fiber` key; the dicts built by
`create_meal_from_response` instead carry `fiber` and `grams` and no `portion`.
Keys that are present in some dicts and absent in others are `Option` fields. -/
structure CookingMethod where
  method : String
  portion : Option String := none
  calories : ℚ
  protein : ℚ
  carbs : ℚ
  fat : ℚ
  price : ℚ
  fiber : Option ℚ := none
  grams : Option ℚ := none
deriving DecidableEq, Repr

/-- `Meal` pydantic model from `models.py`.  Note that the model declares no `fiber`
field (so `getattr(meal, "fiber", 0)` is `0` and a `fiber=` constructor argument is
silently dropped by pydantic) and no `method`/`quantity` fields. -/
structure Meal where
  name : String
  calories : ℚ
  protein : ℚ
  carbs : ℚ
  fat : ℚ
  price : ℚ
  component_type : String
  food_type : String
  cooking_methods : List CookingMethod
deriving DecidableEq, Repr

/-- `MealSelection` pydantic model from `models.py`. -/
structure MealSelection where
  meals : List Meal
  quantities : List ℚ
deriving DecidableEq, Repr

/-- `Recommendation` pydantic model from `models.py`.  It declares exactly these
fields; the `total_fiber=` and `total_cost=` keyword arguments that
`get_meal_recommendation` passes are silently dropped by pydantic. -/
structure Recommendation where
  adjusted_meals : List Meal
  adjusted_quantities : List ℚ
  total_calories : ℚ
  total_protein : ℚ
  total_carbs : ℚ
  total_fat : ℚ
  explanation : String
deriving DecidableEq, Repr

/-- `Menu` pydantic model from `models.py`. -/
structure Menu where
  breakfast : List Meal
  lunch : List Meal
  dinner : List Meal
  total_cost : ℚ
  total_calories : ℚ
  explanation : String
deriving DecidableEq, Repr

/-- `SAMPLE_MEALS[0]` from `models.py`. -/
def gaoLut : Meal :=
  { name := "Gạo lứt", calories := 130, protein := 2.7, carbs := 27, fat := 1,
    price := 5000, component_type := "carb", food_type := "grains",
    cooking_methods :=
      [{ method := "boiled", portion := some "1 bowl (200g cooked)", calories := 216,
         protein := 4.5, carbs := 45, fat := 1.7, price := 8000 },
       { method := "steamed", portion := some "1 bowl (200g cooked)", calories := 216,
         protein := 4.5, carbs := 45, fat := 1.7, price := 8000 }] }

/-- `SAMPLE_MEALS[1]` from `models.py`. -/
def yenMach : Meal :=
  { name := "Yến mạch", calories := 379, protein := 13.2, carbs := 66.3, fat := 6.9,
    price := 25000, component_type := "carb", food_type := "grains",
    cooking_methods :=
      [{ method := "boiled", portion := some "1 bowl (200g cooked)", calories := 307,
         protein := 10.7, carbs := 54.1, fat := 5.6, price := 20000 },
       { method := "raw", portion := some "1 bowl (50g dry)", calories := 189,
         protein := 6.6, carbs := 33.2, fat := 3.5, price := 12500 }] }

/-- `SAMPLE_MEALS[2]` from `models.py`. -/
def khoaiLang : Meal :=
  { name := "Khoai lang", calories := 86, protein := 1.6, carbs := 20, fat := 0.1,
    price := 8000, component_type := "carb", food_type := "tubers",
    cooking_methods :=
      [{ method := "baked", portion := some "1 medium (150g)", calories := 129,
         protein := 2.4, carbs := 30, fat := 0.2, price := 12000 },
       { method := "boiled", portion := some "1 medium (150g)", calories := 129,
         protein := 2.4, carbs := 30, fat := 0.2, price := 12000 }] }

/-- `SAMPLE_MEALS[3]` from `models.py`. -/
def quaChuoi : Meal :=
  { name := "Quả chuối", calories := 89, protein := 1.1, carbs := 23, fat := 0.3,
    price := 5000, component_type := "carb", food_type := "fruits",
    cooking_methods :=
      [{ method := "raw", portion := some "1 medium (120g)", calories := 105,
         protein := 1.3, carbs := 27, fat := 0.4, price := 6000 }] }

/-- `SAMPLE_MEALS[4]` from `models.py`. -/
def ucGa : Meal :=
  { name := "Ức gà", calories := 165, protein := 31, carbs := 0, fat := 3.6,
    price := 80000, component_type := "protein", food_type := "poultry",
    cooking_methods :=
      [{ method := "grilled", portion := some "1 breast (150g)", calories := 248,
         protein := 46.5, carbs := 0, fat := 5.4, price := 120000 },
       { method := "boiled", portion := some "1 breast (150g)", calories := 248,
         protein := 46.5, carbs := 0, fat := 5.4, price := 120000 },
       { method := "baked", portion := some "1 breast (150g)", calories := 248,
         protein := 46.5, carbs := 0, fat := 5.4, price := 120000 }] }

/-- `SAMPLE_MEALS[5]` from `models.py`. -/
def trungGa : Meal :=
  { name := "Trứng gà", calories := 155, protein := 13, carbs := 1.1, fat := 11,
    price := 3000, component_type := "protein", food_type := "eggs",
    cooking_methods :=
      [{ method := "boiled", portion := some "2 eggs", calories := 155, protein := 13,
         carbs := 1.1, fat := 11, price := 6000 },
       { method := "fried", portion := some "2 eggs", calories := 184, protein := 13,
         carbs := 1.1, fat := 14, price := 6000 },
       { method := "scrambled", portion := some "2 eggs", calories := 170, protein := 13,
         carbs := 1.1, fat := 12, price := 6000 }] }

/-- `SAMPLE_MEALS[6]` from `models.py`. -/
def caHoi : Meal :=
  { name := "Cá hồi", calories := 208, protein := 22, carbs := 0, fat := 13,
    price := 120000, component_type := "protein", food_type := "fish",
    cooking_methods :=
      [{ method := "baked", portion := some "1 fillet (150g)", calories := 312,
         protein := 33, carbs := 0, fat := 19.5, price := 180000 },
       { method := "grilled", portion := some "1 fillet (150g)", calories := 312,
         protein := 33, carbs := 0, fat := 19.5, price := 180000 }] }

/-- `SAMPLE_MEALS[7]` from `models.py`. -/
def suaChua : Meal :=
  { name := "Sữa chua", calories := 61, protein := 3.5, carbs := 4.7, fat := 3.3,
    price := 15000, component_type := "protein", food_type := "dairy",
    cooking_methods :=
      [{ method := "plain", portion := some "1 cup (200g)", calories := 122, protein := 7,
         carbs := 9.4, fat := 6.6, price := 30000 }] }

/-- `SAMPLE_MEALS[8]` from `models.py`. -/
def hanhNhan : Meal :=
  { name := "Hạnh nhân", calories := 579, protein := 21.2, carbs := 21.6, fat := 49.9,
    price := 35000, component_type := "good_fat", food_type := "nuts",
    cooking_methods :=
      [{ method := "raw", portion := some "1 handful (30g)", calories := 173,
         protein := 6.4, carbs := 6.5, fat := 15, price := 10500 }] }

/-- `SAMPLE_MEALS[9]` from `models.py` (the avocado/butter entry "Bơ"). -/
def bo : Meal :=
  { name := "Bơ", calories := 717, protein := 2.5, carbs := 4.4, fat := 81.1,
    price := 45000, component_type := "good_fat", food_type := "dairy",
    cooking_methods :=
      [{ method := "spread", portion := some "1 tbsp (15g)", calories := 107,
         protein := 0.4, carbs := 0.7, fat := 12.2, price := 6750 }] }

/-- `SAMPLE_MEALS[10]` from `models.py`. -/
def dauOliu : Meal :=
  { name := "Dầu ô liu", calories := 884, protein := 0, carbs := 0, fat := 100,
    price := 25000, component_type := "good_fat", food_type := "oils",
    cooking_methods :=
      [{ method := "drizzled", portion := some "1 tbsp (15g)", calories := 132,
         protein := 0, carbs := 0, fat := 15, price := 3750 }] }

/-- `SAMPLE_MEALS[11]` from `models.py`. -/
def bongCai : Meal :=
  { name := "Bông cải", calories := 34, protein := 2.8, carbs := 6.6, fat := 0.4,
    price := 15000, component_type := "fiber", food_type := "vegetables",
    cooking_methods :=
      [{ method := "steamed", portion := some "1 cup (150g)", calories := 51,
         protein := 4.2, carbs := 9.9, fat := 0.6, price := 22500 },
       { method := "boiled", portion := some "1 cup (150g)", calories := 51,
         protein := 4.2, carbs := 9.9, fat := 0.6, price := 22500 },
       { method := "raw", portion := some "1 cup (150g)", calories := 51,
         protein := 4.2, carbs := 9.9, fat := 0.6, price := 22500 }] }

/-- `SAMPLE_MEALS[12]` from `models.py`. -/
def caChua : Meal :=
  { name := "Cà chua", calories := 18, protein := 0.9, carbs := 3.9, fat := 0.2,
    price := 10000, component_type := "fiber", food_type := "vegetables",
    cooking_methods :=
      [{ method := "raw", portion := some "2 medium (200g)", calories := 36,
         protein := 1.8, carbs := 7.8, fat := 0.4, price := 20000 }] }

/-- `SAMPLE_MEALS[13]` from `models.py`. -/
def caiXoan : Meal :=
  { name := "Cải xoăn", calories := 49, protein := 4.3, carbs := 8.8, fat := 0.9,
    price := 12000, component_type := "fiber", food_type := "vegetables",
    cooking_methods :=
      [{ method := "steamed", portion := some "2 cups (200g)", calories := 98,
         protein := 8.6, carbs := 17.6, fat := 1.8, price := 24000 },
       { method := "sautéed", portion := some "2 cups (200g)", calories := 98,
         protein := 8.6, carbs := 17.6, fat := 1.8, price := 24000 },
       { method := "raw", portion := some "2 cups (200g)", calories := 98,
         protein := 8.6, carbs := 17.6, fat := 1.8, price := 24000 }] }

/-- `SAMPLE_MEALS[14]` from `models.py`. -/
def tao : Meal :=
  { name := "Táo", calories := 52, protein := 0.3, carbs := 13.8, fat := 0.2,
    price := 8000, component_type := "fiber", food_type := "fruits",
    cooking_methods :=
      [{ method := "raw", portion := some "1 medium (180g)", calories := 95,
         protein := 0.5, carbs := 25.1, fat := 0.3, price := 14400 }] }

/-- `SAMPLE_MEALS` from `models.py`, in source order. -/
def SAMPLE_MEALS : List Meal :=
  [gaoLut, yenMach, khoaiLang, quaChuoi,
   ucGa, trungGa, caHoi, suaChua,
   hanhNhan, bo, dauOliu,
   bongCai, caChua, caiXoan, tao]

/-- Python's built-in `round` on an exact value: round half to even. -/
def pyRound (q : ℚ) : ℤ :=
  let f := ⌊q⌋
  if q - f < 1 / 2 then f
  else if 1 / 2 < q - f then f + 1
  else if 2 ∣ f then f else f + 1

/-- The 25-gram snapping used throughout `ai_service.py`:
`rounded = round(x / 25) * 25; rounded = max(25, rounded)`. -/
def round_to_25 (q : ℚ) : ℚ :=
  max 25 ((pyRound (q / 25) : ℚ) * 25)

/-- Per-100g nutrition values of a meal as read by `ai_service.py` (lines 31–49 and
180–195): the first cooking method's values when `cooking_methods` is non-empty
(its missing `fiber` key read with `.get("fiber", 0)`), otherwise the base values
(where `getattr(meal, "fiber", 0)` is `0` because the pydantic `Meal` model has no
`fiber` field). -/
structure Per100 where
  calories : ℚ
  protein : ℚ
  carbs : ℚ
  fat : ℚ
  fiber : ℚ
deriving DecidableEq, Repr

/-- Select the per-100g values for one meal, as in `ai_service.py` lines 31–49. -/
def meal_per100 (m : Meal) : Per100 :=
  match m.cooking_methods with
  | md :: _ =>
      { calories := md.calories, protein := md.protein, carbs := md.carbs,
        fat := md.fat, fiber := md.fiber.getD 0 }
  | [] =>
      { calories := m.calories, protein := m.protein, carbs := m.carbs,
        fat := m.fat, fiber := 0 }

/-- Sum `f(meal) * qty / 100` over the zipped meal/quantity lists, the accumulation
pattern of `ai_service.py` lines 27–58 and 178–203 (Python `zip` truncates to the
shorter list, as `List.zip` does). -/
def scaled_sum (meals : List Meal) (quantities : List ℚ) (f : Meal → ℚ) : ℚ :=
  ((meals.zip quantities).map (fun p => f p.1 * p.2 / 100)).sum

/-- `current_calories` accumulated by `get_meal_recommendation` (lines 27–58). -/
def current_calories (sel : MealSelection) : ℚ :=
  scaled_sum sel.meals sel.quantities (fun m => (meal_per100 m).calories)

/-- Outcome of the external AI call and JSON parse in `get_meal_recommendation`.
`callFailure` is any exception raised by the API-key lookup, client construction or
the call itself (outer `except`, line 154); `parseFailure` is any exception raised
while parsing the reply or converting its entries to floats (inner `except`,
line 144); `success raw expl` is a parsed reply whose resolved gram list (the
`adjusted_grams` key, else `adjusted_quantities`, else the input quantities) is
`raw` and whose explanation string is `expl`. -/
inductive AIOutcome where
  | callFailure
  | parseFailure
  | success (raw_grams : List ℚ) (explanation : String)

/-- The `adjusted_quantities` list computed by the three branches of
`get_meal_recommendation` (success: lines 131–143; parse fallback: lines 144–152;
call fallback: lines 154–165). -/
def adjusted_quantities_of (user : User) (sel : MealSelection) (o : AIOutcome) : List ℚ :=
  match o with
  | .success raw _ => raw.map round_to_25
  | .parseFailure => sel.quantities.map round_to_25
  | .callFailure =>
      let daily_calories := calculate_daily_calories user
      let scale_factor := daily_calories / max (current_calories sel) 1
      sel.quantities.map (fun qty => round_to_25 (qty * scale_factor))

/-- The explanation string of each branch (the call-fallback string interpolates the
scale factor and the calorie target; that numeric formatting is elided here). -/
def explanation_of (o : AIOutcome) : String :=
  match o with
  | .success _ expl => expl
  | .parseFailure => "Unable to parse AI response - using rounded current quantities"
  | .callFailure => "Simple scaling to reach daily calorie target (rounded to 25g increments)"

/-- The `Recommendation` that `get_meal_recommendation` builds once past the prompt
(lines 115–217): the branch-dependent adjusted quantities, the recomputed totals
over `zip(selection.meals, adjusted_quantities)`, and `adjusted_meals` set to the
input meals unchanged.  The `total_fiber` and `total_cost` the code also computes
are dropped by the pydantic `Recommendation` model, which has no such fields. -/
def recommendation_core (user : User) (sel : MealSelection) (o : AIOutcome) : Recommendation :=
  let aq := adjusted_quantities_of user sel o
  { adjusted_meals := sel.meals
    adjusted_quantities := aq
    total_calories := scaled_sum sel.meals aq (fun m => (meal_per100 m).calories)
    total_protein := scaled_sum sel.meals aq (fun m => (meal_per100 m).protein)
    total_carbs := scaled_sum sel.meals aq (fun m => (meal_per100 m).carbs)
    total_fat := scaled_sum sel.meals aq (fun m => (meal_per100 m).fat)
    explanation := explanation_of o }

/-- `get_meal_recommendation` from `ai_service.py`.  Before the `try` block the
prompt f-string (lines 62–112) subscripts the macro-target dict with `"protein"`,
`"carbs"`, `"fat"` (lines 70–72) and `"fiber"` (line 73); a missing key raises
`KeyError` there, which propagates to the caller because it is outside the
`try`/`except`. -/
def get_meal_recommendation (user : User) (sel : MealSelection) (o : AIOutcome) :
    Except String Recommendation :=
  let daily_calories := calculate_daily_calories user
  let mt := get_macro_targets user daily_calories
  if (mt.lookup "protein").isNone then .error "KeyError: protein"
  else if (mt.lookup "carbs").isNone then .error "KeyError: carbs"
  else if (mt.lookup "fat").isNone then .error "KeyError: fat"
  else if (mt.lookup "fiber").isNone then .error "KeyError: fiber"
  else .ok (recommendation_core user sel o)

/-- One meal entry of the AI's budget-menu JSON reply, as read by
`create_meal_from_response` through `dict.get` with defaults; every key may be
absent. -/
structure MealData where
  name : Option String := none
  method : Option String := none
  grams : Option ℚ := none
  portions : Option ℚ := none
  calories : Option ℚ := none
  protein : Option ℚ := none
  carbs : Option ℚ := none
  fat : Option ℚ := none
  fiber : Option ℚ := none
  price : Option ℚ := none
deriving Repr

/-- Lowercase one character the way Python's `str.lower()` does, restricted to the
alphabet that occurs in this program: ASCII letters plus the uppercase Vietnamese
letters used in the catalog names (`Char.toLower` alone would miss the non-ASCII
ones, unlike Python). -/
def pyLowerChar (c : Char) : Char :=
  if c = 'Ứ' then 'ứ'
  else if c = 'Ầ' then 'ầ'
  else if c = 'Ế' then 'ế'
  else if c = 'Ô' then 'ô'
  else if c = 'Ả' then 'ả'
  else if c = 'Á' then 'á'
  else if c = 'Ữ' then 'ữ'
  else if c = 'Ạ' then 'ạ'
  else c.toLower

/-- Python's `str.lower()` on a whole string, via `pyLowerChar`. -/
def pyLower (s : String) : String :=
  ⟨s.data.map pyLowerChar⟩

/-- The rounded gram amount computed by `create_meal_from_response` (lines 327–330):
`grams = meal_data.get("grams", meal_data.get("portions", 100))`, snapped to the
25-gram grid with a 25-gram minimum. -/
def create_meal_rounded_grams (md : MealData) : ℚ :=
  round_to_25 (md.grams.getD (md.portions.getD 100))

/-- The `Meal` object that `create_meal_from_response` constructs (lines 332–409):
resolve the name against `SAMPLE_MEALS` case-insensitively; on a hit use the
catalog's (or the matching cooking method's) per-100g values scaled by
`rounded_grams / 100`; on a miss fall back to the AI-supplied numbers scaled the
same way.  The `fiber=` constructor argument of the Python code is dropped because
the pydantic `Meal` model declares no such field. -/
def create_meal_payload (md : MealData) : Meal :=
  let rounded_grams := create_meal_rounded_grams md
  let method := md.method.getD ""
  let meal_name := md.name.getD "Unknown"
  let actual_meal := SAMPLE_MEALS.find? (fun m => pyLower m.name == pyLower meal_name)
  let vals : ℚ × ℚ × ℚ × ℚ × ℚ :=
    match actual_meal with
    | some am =>
        let base_price := am.price * rounded_grams / 100
        if method ≠ "" ∧ am.cooking_methods ≠ [] then
          match am.cooking_methods.find? (fun cm => pyLower cm.method == pyLower method) with
          | some cmd =>
              (cmd.calories * rounded_grams / 100,
               cmd.protein * rounded_grams / 100,
               cmd.carbs * rounded_grams / 100,
               cmd.fat * rounded_grams / 100,
               cmd.price * rounded_grams / 100)
          | none =>
              (am.calories * rounded_grams / 100,
               am.protein * rounded_grams / 100,
               am.carbs * rounded_grams / 100,
               am.fat * rounded_grams / 100,
               base_price)
        else
          (am.calories * rounded_grams / 100,
           am.protein * rounded_grams / 100,
           am.carbs * rounded_grams / 100,
           am.fat * rounded_grams / 100,
           base_price)
    | none =>
        (md.calories.getD 0 * rounded_grams / 100,
         md.protein.getD 0 * rounded_grams / 100,
         md.carbs.getD 0 * rounded_grams / 100,
         md.fat.getD 0 * rounded_grams / 100,
         md.price.getD 0 * rounded_grams / 100)
  { name := meal_name
    calories := vals.1
    protein := vals.2.1
    carbs := vals.2.2.1
    fat := vals.2.2.2.1
    price := vals.2.2.2.2
    component_type := "mixed"
    food_type := "prepared"
    cooking_methods :=
      if method ≠ "" then
        [{ method := method, calories := vals.1, protein := vals.2.1,
           carbs := vals.2.2.1, fat := vals.2.2.2.1, price := vals.2.2.2.2,
           fiber := some (md.fiber.getD 0 * rounded_grams / 100),
           grams := some rounded_grams }]
      else [] }

/-- `create_meal_from_response` from `ai_service.py`.  After constructing the meal
object (see `create_meal_payload`) the code executes `meal.method = method`
(line 412).  The pydantic `Meal` model declares no `method` field and does not allow
extra attributes, so this assignment raises `ValueError` for every input and the
function never returns a meal. -/
def create_meal_from_response (md : MealData) : Except String Meal :=
  let _meal := create_meal_payload md
  .error "ValueError: Meal object has no field method"

/-- Outcome of the budget-menu AI call in `get_optimized_menu`, analogous to
`AIOutcome`: `success` carries the parsed `breakfast`/`lunch`/`dinner` entry lists
and the explanation string. -/
inductive MenuAIOutcome where
  | callFailure
  | parseFailure
  | success (breakfast lunch dinner : List MealData) (explanation : String)

/-- `create_fallback_menu` from `ai_service.py` (lines 417–441): the three hardcoded
catalog items `SAMPLE_MEALS[1]`, `SAMPLE_MEALS[4]`, `SAMPLE_MEALS[9]` (the source
comment next to index 9 says "Bông cải" but the item at index 9 is "Bơ"), with
totals taken from the budget split 30/40/30 and the calorie target split 25/45/30,
not from the items themselves. -/
def create_fallback_menu (user : User) (budget daily_calories : ℚ) : Menu :=
  let _ := user
  { breakfast := [yenMach]
    lunch := [ucGa]
    dinner := [bo]
    total_cost := budget * 0.3 + budget * 0.4 + budget * 0.3
    total_calories := daily_calories * 0.25 + daily_calories * 0.45 + daily_calories * 0.30
    explanation := "Fallback menu - AI optimization unavailable" }

/-- Whether some catalog cooking-method dict lacks a `fiber` key.  The `meals_str`
comprehension of `get_optimized_menu` (lines 225–232) subscripts `method["fiber"]`
for every cooking method of every catalog meal, so this condition makes the
comprehension raise `KeyError`. -/
def catalog_method_missing_fiber : Bool :=
  SAMPLE_MEALS.any (fun m => m.cooking_methods.any (fun cm => cm.fiber.isNone))

/-- The body of `get_optimized_menu`'s `try` block (lines 273–321): on call or parse
failure, or on any exception while converting the reply's meal entries (every
`create_meal_from_response` call raises, see above), the `except` returns the
fallback menu; otherwise the menu is assembled from the converted meals with totals
summed over all of them. -/
def optimized_menu_body (user : User) (budget daily_calories : ℚ) (o : MenuAIOutcome) : Menu :=
  match o with
  | .callFailure => create_fallback_menu user budget daily_calories
  | .parseFailure => create_fallback_menu user budget daily_calories
  | .success breakfast lunch dinner expl =>
      let converted : Except String (List Meal × List Meal × List Meal) := do
        let bs ← breakfast.mapM create_meal_from_response
        let ls ← lunch.mapM create_meal_from_response
        let ds ← dinner.mapM create_meal_from_response
        pure (bs, ls, ds)
      match converted with
      | .error _ => create_fallback_menu user budget daily_calories
      | .ok (bs, ls, ds) =>
          let all_meals := bs ++ ls ++ ds
          { breakfast := bs
            lunch := ls
            dinner := ds
            total_cost := (all_meals.map (fun m => m.price)).sum
            total_calories := (all_meals.map (fun m => m.calories)).sum
            explanation := expl }

/-- `get_optimized_menu` from `ai_service.py`.  Before the `try` block the function
builds `meals_str` (lines 225–232), whose f-string subscripts `method["fiber"]` for
each catalog cooking method — a key none of the `SAMPLE_MEALS` dicts define — and
then the prompt (lines 234–271), which subscripts the macro-target dict with
`"protein"`, `"carbs"`, `"fat"`.  A `KeyError` raised there propagates to the
caller because it is outside the `try`/`except`. -/
def get_optimized_menu (user : User) (budget : ℚ) (o : MenuAIOutcome) : Except String Menu :=
  let daily_calories := calculate_daily_calories user
  let mt := get_macro_targets user daily_calories
  if catalog_method_missing_fiber then .error "KeyError: fiber"
  else if (mt.lookup "protein").isNone then .error "KeyError: protein"
  else if (mt.lookup "carbs").isNone then .error "KeyError: carbs"
  else if (mt.lookup "fat").isNone then .error "KeyError: fat"
  else .ok (optimized_menu_body user budget daily_calories o)

/-- A budget-menu AI reply entry whose name resolves against no catalog meal
(case-insensitively): the failing input for claim C8. -/
def phoBo : MealData :=
  { name := some "Phở bò", method := some "xào", grams := some 130,
    calories := some 500, protein := some 20, carbs := some 50, fat := some 20,
    fiber := some 5, price := some 40000 }

/-- Every 25-gram-snapped value is a positive multiple of 25 grams (at least one
step), whatever the input. -/
theorem round_to_25_grid (q : ℚ) : ∃ k : ℕ, 1 ≤ k ∧ round_to_25 q = 25 * k := by
  unfold round_to_25
  set n := pyRound (q / 25) with hn
  rcases le_or_lt n 1 with h | h
  · refine ⟨1, le_refl 1, ?_⟩
    have h25 : (n : ℚ) * 25 ≤ 25 := by
      have : (n : ℚ) ≤ 1 := by exact_mod_cast h
      nlinarith
    rw [max_eq_left h25]
    norm_num
  · refine ⟨n.toNat, ?_, ?_⟩
    · omega
    · have hnn : (0 : ℤ) ≤ n := by omega
      have h25 : (25 : ℚ) ≤ (n : ℚ) * 25 := by
        have : (1 : ℚ) ≤ (n : ℚ) := by exact_mod_cast h.le
        nlinarith
      rw [max_eq_right h25]
      have : ((n.toNat : ℕ) : ℚ) = (n : ℚ) := by exact_mod_cast Int.toNat_of_nonneg hnn
      rw [this]
      ring

/-- Every entry of the adjusted-quantity list, on every branch, is a 25-gram-snapped
value. -/
theorem mem_adjusted_is_rounded (user : User) (sel : MealSelection) (o : AIOutcome)
    (q : ℚ) (hq : q ∈ adjusted_quantities_of user sel o) : ∃ x, q = round_to_25 x := by
  cases o <;> simp only [adjusted_quantities_of, List.mem_map] at hq <;>
    obtain ⟨x, -, rfl⟩ := hq
  · exact ⟨_, rfl⟩
  · exact ⟨_, rfl⟩
  · exact ⟨_, rfl⟩

/-- C1: claimed that `get_meal_recommendation` never lets an exception propagate and
always returns a usable `Recommendation`.  In fact the prompt f-string subscripts
the macro-target dict with the missing key `"fiber"` before the `try` block, so the
function raises `KeyError` to its caller for every user profile, every meal
selection and every AI outcome, and no fallback is ever reached. -/
theorem c1_meal_recommendation_always_raises :
    ∀ (user : User) (sel : MealSelection) (o : AIOutcome),
      get_meal_recommendation user sel o = .error "KeyError: fiber" :=
  fun _ _ _ => rfl

/-- C2: claimed that the returned `adjusted_quantities` always has the input's
length.  The full function in fact always raises `KeyError: fiber` and returns no
list at all; of the adjustment logic it would run, the parse-failure and
call-failure branches do preserve the input length, while the success branch
returns one quantity per entry of the AI's reply list, whose length is not
validated against the input. -/
theorem c2_adjusted_quantities_length :
    ∀ (user : User) (sel : MealSelection),
      (∀ o, get_meal_recommendation user sel o = .error "KeyError: fiber")
      ∧ (recommendation_core user sel .parseFailure).adjusted_quantities.length
          = sel.quantities.length
      ∧ (recommendation_core user sel .callFailure).adjusted_quantities.length
          = sel.quantities.length
      ∧ ∀ raw expl,
          (recommendation_core user sel (.success raw expl)).adjusted_quantities.length
            = raw.length := by
  intro user sel
  refine ⟨fun _ => rfl, ?_, ?_, fun raw expl => ?_⟩ <;>
    simp [recommendation_core, adjusted_quantities_of]

/-- C3: claimed that every returned adjusted quantity, and the quantity of every
meal built by `create_meal_from_response`, is a positive multiple of 25 grams.
The grid property does hold of every entry the adjustment logic computes (every
branch snaps with `round(x/25)*25` clamped to at least 25), and of the gram amount
`create_meal_from_response` computes — but neither value is ever returned:
`get_meal_recommendation` raises `KeyError: fiber` before the `try` block, and
`create_meal_from_response` raises `ValueError` at the `meal.method = method`
assignment, which the pydantic `Meal` model rejects. -/
theorem c3_quantities_on_25_gram_grid :
    ∀ (user : User) (sel : MealSelection) (o : AIOutcome),
      get_meal_recommendation user sel o = .error "KeyError: fiber"
      ∧ (∀ q ∈ (recommendation_core user sel o).adjusted_quantities,
          ∃ k : ℕ, 1 ≤ k ∧ q = 25 * k)
      ∧ (∀ md : MealData,
          create_meal_from_response md = .error "ValueError: Meal object has no field method")
      ∧ (∀ md : MealData, ∃ k : ℕ, 1 ≤ k ∧ create_meal_rounded_grams md = 25 * k) := by
  intro user sel o
  refine ⟨rfl, ?_, fun _ => rfl, fun md => round_to_25_grid _⟩
  intro q hq
  obtain ⟨x, rfl⟩ := mem_adjusted_is_rounded user sel o q hq
  exact round_to_25_grid x

/-- C3 witness: the grid property instantiated at a singleton selection of 50 grams
on the parse-failure branch. -/
theorem c3_quantities_on_25_gram_grid_witness :
    ∃ k : ℕ, 1 ≤ k ∧ round_to_25 50 = 25 * k :=
  (c3_quantities_on_25_gram_grid c4User ⟨[], [50]⟩ .parseFailure).2.1 (round_to_25 50)
    (by simp [recommendation_core, adjusted_quantities_of])

/-- C4 counterexample: for the profile male, age 25, height 170 cm, weight 70 kg,
moderate activity, maintain goal, the code computes BMR `10·70 + 6.25·170 − 5·25 + 5
= 1642.5` and daily target `1642.5 · 1.55 = 2545.875`, not the values 1673.75 and
2594.3125 stated by the claim (those correspond to a height of 175 cm). -/
theorem c4_stated_values_counterexample :
    calculate_bmr c4User = 1642.5 ∧ get_daily_calories c4User = 2545.875
    ∧ calculate_bmr c4User ≠ 1673.75 ∧ get_daily_calories c4User ≠ 2594.3125 := by
  refine ⟨?_, ?_, ?_, ?_⟩ <;>
    norm_num [calculate_bmr, get_daily_calories, calculate_tdee, activity_multipliers, c4User]

/-- C4 (amended): the daily calorie target is a deterministic function of
(gender, height, weight, age, activity, goal) — the name is irrelevant — and for
the profile male, age 25, height 170 cm, weight 70 kg, moderate activity, maintain
goal the computation yields BMR = 1642.5, TDEE = 2545.875 and daily calorie target
= 2545.875. -/
theorem c4_calorie_target_amended :
    (∀ u1 u2 : User, u1.gender = u2.gender → u1.height = u2.height → u1.weight = u2.weight →
      u1.age = u2.age → u1.activity = u2.activity → u1.goal = u2.goal →
      get_daily_calories u1 = get_daily_calories u2)
    ∧ calculate_bmr c4User = 1642.5
    ∧ calculate_tdee c4User (calculate_bmr c4User) = 2545.875
    ∧ get_daily_calories c4User = 2545.875 := by
  refine ⟨?_, ?_, ?_, ?_⟩
  · intro u1 u2 h1 h2 h3 h4 h5 h6
    simp [get_daily_calories, calculate_tdee, calculate_bmr, activity_multipliers,
      h1, h2, h3, h4, h5, h6]
  all_goals
    norm_num [calculate_bmr, get_daily_calories, calculate_tdee, activity_multipliers, c4User]

/-- C4 witness: determinism applied to two users that differ only in their name. -/
theorem c4_calorie_target_amended_witness :
    get_daily_calories c4User = get_daily_calories c4UserRenamed :=
  c4_calorie_target_amended.1 c4User c4UserRenamed rfl rfl rfl rfl rfl rfl

/-- C5: TDEE is BMR times the activity multiplier from the fixed lookup
{sedentary: 1.2, light: 1.375, moderate: 1.55, active: 1.725}, and the daily
calorie target is TDEE − 500 for the lose goal, TDEE + 500 for the gain goal and
TDEE for the maintain goal, for every user profile. -/
theorem c5_tdee_and_goal_adjustment :
    ∀ (u : User) (bmr : ℚ),
      calculate_tdee u bmr =
        bmr * (match u.activity with
               | .sedentary => (1.2 : ℚ)
               | .light => 1.375
               | .moderate => 1.55
               | .active => 1.725)
      ∧ get_daily_calories u =
          (match u.goal with
           | .lose => calculate_tdee u (calculate_bmr u) - 500
           | .gain => calculate_tdee u (calculate_bmr u) + 500
           | .maintain => calculate_tdee u (calculate_bmr u)) := by
  intro u bmr
  constructor
  · cases h : u.activity <;> simp [calculate_tdee, activity_multipliers, h]
  · cases h : u.goal <;> simp [get_daily_calories, h]

/-- C6: for every user profile and every daily calorie value, the macro gram
targets convert back to exactly the daily calories via protein·4 + carbs·4 + fat·9,
for each of the three goals (the three ratio triples each sum to 1). -/
theorem c6_macro_targets_calorie_identity :
    ∀ (u : User) (dc : ℚ), ∃ p c f : ℚ,
      (get_macro_targets u dc).lookup "protein" = some p
      ∧ (get_macro_targets u dc).lookup "carbs" = some c
      ∧ (get_macro_targets u dc).lookup "fat" = some f
      ∧ p * 4 + c * 4 + f * 9 = dc := by
  intro u dc
  refine ⟨_, _, _, rfl, rfl, rfl, ?_⟩
  cases h : u.goal <;> simp [get_macro_targets, h] <;> ring

/-- C7: claimed that on AI-call failure each returned quantity is the original times
(daily target / max(current calories, 1)), snapped to the 25-gram grid.  The
call-failure branch of the adjustment logic computes exactly that list — but the
function never reaches its `try` block: it raises `KeyError: fiber` while building
the prompt, so the scaling fallback is unreachable and nothing is returned. -/
theorem c7_call_failure_scaling :
    ∀ (user : User) (sel : MealSelection),
      (∀ o, get_meal_recommendation user sel o = .error "KeyError: fiber")
      ∧ (recommendation_core user sel .callFailure).adjusted_quantities =
          sel.quantities.map (fun qty =>
            round_to_25 (qty * (calculate_daily_calories user / max (current_calories sel) 1))) :=
  fun _ _ => ⟨fun _ => rfl, rfl⟩

/-- C8: claimed that an unresolvable meal name in the AI's budget-menu reply makes
`create_meal_from_response` fall back to the raw AI-supplied numbers and still
yields a complete menu.  In fact `get_optimized_menu` raises `KeyError: fiber`
while building `meals_str` (before its `try` block) for every input, so the reply
is never processed; and `create_meal_from_response` itself raises `ValueError` at
the `meal.method = method` assignment for every entry, although it does compute the
raw-value fallback (`phoBo` resolves to no catalog meal and its computed calories
and price are the AI numbers scaled by 125/100) before crashing. -/
theorem c8_unresolvable_meal_name :
    ∀ (user : User) (budget : ℚ),
      get_optimized_menu user budget (.success [phoBo] [] [] "menu") = .error "KeyError: fiber"
      ∧ create_meal_from_response phoBo = .error "ValueError: Meal object has no field method"
      ∧ SAMPLE_MEALS.find? (fun m => pyLower m.name == pyLower (phoBo.name.getD "Unknown")) = none
      ∧ (create_meal_payload phoBo).calories = 625
      ∧ (create_meal_payload phoBo).price = 50000
      ∧ optimized_menu_body user budget (calculate_daily_calories user)
          (.success [phoBo] [] [] "menu")
          = create_fallback_menu user budget (calculate_daily_calories user) := by
  intro user budget
  have hfind : SAMPLE_MEALS.find? (fun m => pyLower m.name == pyLower "Phở bò") = none := by
    decide
  have hg : create_meal_rounded_grams phoBo = 125 := by
    norm_num [create_meal_rounded_grams, phoBo, round_to_25, pyRound]
  refine ⟨rfl, rfl, by decide, ?_, ?_, rfl⟩ <;>
    · simp only [create_meal_payload]
      rw [show (phoBo.name.getD "Unknown") = "Phở bò" from rfl, hfind, hg]
      simp only [phoBo, Option.getD_some]
      norm_num

/-- C9: claimed that on call or parse failure `get_optimized_menu` returns the
static fallback menu.  The fallback menu itself is exactly as described — the three
hardcoded catalog items `SAMPLE_MEALS[1]`, `SAMPLE_MEALS[4]`, `SAMPLE_MEALS[9]`,
total cost the 30/40/30 budget split (summing to the full budget) and total
calories the 25/45/30 split of the daily target (summing to the full target) — but
`get_optimized_menu` never returns it: it raises `KeyError: fiber` while building
`meals_str`, before the `try` block, on the call-failure and parse-failure paths
alike. -/
theorem c9_static_fallback_menu :
    ∀ (user : User) (budget : ℚ),
      get_optimized_menu user budget .callFailure = .error "KeyError: fiber"
      ∧ get_optimized_menu user budget .parseFailure = .error "KeyError: fiber"
      ∧ (create_fallback_menu user budget (calculate_daily_calories user)).breakfast = [yenMach]
      ∧ (create_fallback_menu user budget (calculate_daily_calories user)).lunch = [ucGa]
      ∧ (create_fallback_menu user budget (calculate_daily_calories user)).dinner = [bo]
      ∧ SAMPLE_MEALS.get? 1 = some yenMach
      ∧ SAMPLE_MEALS.get? 4 = some ucGa
      ∧ SAMPLE_MEALS.get? 9 = some bo
      ∧ (create_fallback_menu user budget (calculate_daily_calories user)).total_cost = budget
      ∧ (create_fallback_menu user budget (calculate_daily_calories user)).total_calories
          = calculate_daily_calories user := by
  intro user budget
  refine ⟨rfl, rfl, rfl, rfl, rfl, rfl, rfl, rfl, ?_, ?_⟩
  · simp only [create_fallback_menu]
    ring
  · simp only [create_fallback_menu]
    ring

/-- C10: claimed that the returned `adjusted_meals` is exactly the input selection's
meal list.  The adjustment logic does pass `selection.meals` through unchanged on
every branch — but the function never returns: it raises `KeyError: fiber` while
building the prompt, for every profile, selection and outcome. -/
theorem c10_adjusted_meals_unchanged :
    ∀ (user : User) (sel : MealSelection) (o : AIOutcome),
      get_meal_recommendation user sel o = .error "KeyError: fiber"
      ∧ (recommendation_core user sel o).adjusted_meals = sel.meals :=
  fun _ _ _ => ⟨rfl, rfl⟩

end NutriAI
